import Mathlib

/-!
# Verification of the storybook generator ("Fábula Mágica AI")

Shallow embedding of the state and sequencing logic of the repository:
the multi-stage generation pipeline (`App.tsx` / `services/geminiService.ts`),
the storybook view state machine (`components/StorybookView.tsx`), the audio
decoding helper, and the generation form's page-count input
(`components/StoryGeneratorForm.tsx`).

Remote provider calls are opaque boundaries; each is modelled by an oracle
value describing the provider's response, and the repository-side handling of
that response (validation, error wrapping, state updates) is translated
faithfully from the TypeScript source.
-/

namespace Fabula

/-! ## Data model (`types.ts`) -/

/-- `StoryPageData` from `types.ts`. -/
structure StoryPageData where
  pageNumber : Nat
  text : String
  imagePrompt : String
  imageUrl : String
  audioData : String
  deriving Repr, DecidableEq

/-- `StoryContentResponse` from `types.ts`: one element of the structured
story-content payload. -/
structure StoryContentResponse where
  storyText : String
  imagePrompt : String
  deriving Repr, DecidableEq

/-- `GenerationStatus` from `types.ts`. -/
structure GenerationStatus where
  isLoading : Bool
  message : String
  deriving Repr, DecidableEq

/-! ## View state machine (`components/StorybookView.tsx`)

`totalPages = pages.length`, `totalViews = 1 + totalPages * 2`;
view index 0 is the cover, odd indices are image views, positive even
indices are text views. -/

/-- `totalViews = 1 + totalPages * 2` (StorybookView.tsx line 103). -/
def totalViews (totalPages : Nat) : Nat := 1 + totalPages * 2

/-- `isCover = currentViewIndex === 0` (line 105). -/
def isCover (currentViewIndex : Nat) : Bool := currentViewIndex == 0

/-- `isTextView = !isCover && currentViewIndex % 2 === 0` (line 107). -/
def isTextView (currentViewIndex : Nat) : Bool :=
  !isCover currentViewIndex && currentViewIndex % 2 == 0

/-- `isImageView = !isCover && currentViewIndex % 2 !== 0` (line 106). -/
def isImageView (currentViewIndex : Nat) : Bool :=
  !isCover currentViewIndex && currentViewIndex % 2 != 0

/-- `pageIndex = isCover ? -1 : floor((currentViewIndex - 1) / 2)` (line 108);
only used on non-cover views, where it is non-negative, so we keep it in `Nat`
and reserve it for non-cover indices. -/
def pageIndex (currentViewIndex : Nat) : Nat := (currentViewIndex - 1) / 2

/-- `goToNext` (StorybookView.tsx lines 157-160):
`prev < totalViews - 1 ? prev + 1 : 0`. -/
def goToNext (totalPages cur : Nat) : Nat :=
  if cur < totalViews totalPages - 1 then cur + 1 else 0

/-- `goToPrevious` (StorybookView.tsx lines 152-155):
`prev > 0 ? prev - 1 : totalViews - 1`. -/
def goToPrevious (totalPages cur : Nat) : Nat :=
  if cur > 0 then cur - 1 else totalViews totalPages - 1

/-! ## Generation services (`services/geminiService.ts`)

Each service call sends a prompt to the provider and post-processes the
response. The provider is an opaque boundary, so each call is modelled as a
function of an oracle value describing the provider's raw response; the
prompt-building inputs (plot text, character image, voice name), which only
shape the request and never the repository-side handling, are elided. All
service-level throws are collapsed into `Except.error ()` because every one
of them is re-thrown as a single generic `Error` and reduced by the caller's
catch block to one generic user-facing message. -/

/-- Raw provider responses for one run of the generation pipeline.
`none` / `.error` means the call failed or the expected payload part was
absent; per-page responses are indexed by the loop counter `i`. -/
structure Oracle where
  titleResp : Except Unit String
  contentResp : Option (List StoryContentResponse)
  imageResp : Nat → Option (String × String)
  speechResp : Nat → Option String

/-- Model of JavaScript `String.prototype.trim`: drop leading and trailing
whitespace. -/
def jsTrim (s : String) : String :=
  ⟨((s.data.dropWhile Char.isWhitespace).reverse.dropWhile Char.isWhitespace).reverse⟩

/-- Model of `replace(/"/g, '')`: remove every double-quote character. -/
def stripQuotes (s : String) : String :=
  ⟨s.data.filter (fun c => c ≠ '"')⟩

/-- `generateTitleFromPlot` (geminiService.ts lines 43-70): returns
`response.text.trim().replace(/"/g, '')`; any provider failure is re-thrown
as an error. -/
def generateTitleFromPlot (resp : Except Unit String) : Except Unit String :=
  match resp with
  | .error _ => .error ()
  | .ok t => .ok (stripQuotes (jsTrim t))

/-- `generateStoryContent` (geminiService.ts lines 90-151): parses the JSON
payload (`none` = request failure or non-array parse result), then rejects an
empty array and an array whose length differs from `numPages`. -/
def generateStoryContent (numPages : Nat)
    (payload : Option (List StoryContentResponse)) :
    Except Unit (List StoryContentResponse) :=
  match payload with
  | none => .error ()
  | some parsedResponse =>
    if parsedResponse.isEmpty then .error ()
    else if parsedResponse.length ≠ numPages then .error ()
    else .ok parsedResponse

/-- `generateStoryContent` in the `src/unnamed/part_004` revision of the
service (lines 94-118): same parsing and non-empty-array check, but no
comparison of the returned length against `numPages`. -/
def generateStoryContent_part004 (numPages : Nat)
    (payload : Option (List StoryContentResponse)) :
    Except Unit (List StoryContentResponse) :=
  match payload with
  | none => .error ()
  | some parsedResponse =>
    if parsedResponse.isEmpty then .error ()
    else .ok parsedResponse

/-- `generateImage` (geminiService.ts lines 153-192): if the response holds an
inline image part `(mimeType, base64ImageBytes)` the result is the data URI
`data:{mimeType};base64,{base64ImageBytes}`, otherwise an error is thrown. -/
def generateImage (resp : Option (String × String)) : Except Unit String :=
  match resp with
  | none => .error ()
  | some (mimeType, base64ImageBytes) =>
    .ok ("data:" ++ mimeType ++ ";base64," ++ base64ImageBytes)

/-- `generateSpeech` (geminiService.ts lines 194-217): extracts
`inlineData.data` from the response; a missing part or an empty string is
falsy in `if (!base64Audio)` and throws. -/
def generateSpeech (resp : Option String) : Except Unit String :=
  match resp with
  | none => .error ()
  | some base64Audio =>
    if base64Audio = "" then .error () else .ok base64Audio

/-- The image URL produced by a successful `generateImage` call: a data-URI
string. -/
def IsDataUri (s : String) : Prop :=
  ∃ mimeType data, s = "data:" ++ mimeType ++ ";base64," ++ data

/-! ## Generation orchestrator (`App.tsx`, `handleGenerateStory`) -/

/-- One element of `pagesWithPrompts` (App.tsx lines 57-61):
`{ pageNumber: index + 1, text: page.storyText, imagePrompt: page.imagePrompt }`. -/
structure PagePrompt where
  pageNumber : Nat
  text : String
  imagePrompt : String
  deriving Repr, DecidableEq

/-- `storyContent.map((page, index) => ...)` (App.tsx lines 57-61), with the
running index made explicit. -/
def buildPrompts : List StoryContentResponse → Nat → List PagePrompt
  | [], _ => []
  | c :: rest, i => ⟨i + 1, c.storyText, c.imagePrompt⟩ :: buildPrompts rest (i + 1)

/-- The per-page loop of `handleGenerateStory` (App.tsx lines 63-83):
for each prompt, generate the image then the narration, append the
fully-formed page and publish the grown list; a failure of either call aborts
the loop, leaving exactly the pages already appended. The `Bool` records
whether the loop ran to completion. -/
def runPages (o : Oracle) :
    List PagePrompt → Nat → List StoryPageData → List StoryPageData × Bool
  | [], _, acc => (acc, true)
  | p :: rest, i, acc =>
    match generateImage (o.imageResp i) with
    | .error _ => (acc, false)
    | .ok imageUrl =>
      match generateSpeech (o.speechResp i) with
      | .error _ => (acc, false)
      | .ok audioData =>
        runPages o rest (i + 1)
          (acc ++ [⟨p.pageNumber, p.text, p.imagePrompt, imageUrl, audioData⟩])

/-- The number of pages fully completed (image and narration both generated)
before the first failing remote call in the per-page loop. -/
def completedPrefix (o : Oracle) : List PagePrompt → Nat → Nat
  | [], _ => 0
  | _ :: rest, i =>
    match generateImage (o.imageResp i), generateSpeech (o.speechResp i) with
    | .ok _, .ok _ => completedPrefix o rest (i + 1) + 1
    | _, _ => 0

/-- The generic user-facing message set by the catch block of
`handleGenerateStory` (App.tsx line 88). -/
def storyGenericError : String :=
  "Ocorreu um erro ao gerar a história. Por favor, tente novamente."

/-- The UI state touched by the two generation handlers in `App.tsx`. -/
structure AppState where
  storyPages : List StoryPageData
  storyTitle : String
  generationStatus : GenerationStatus
  videoUrl : Option String
  videoGenerationStatus : GenerationStatus
  error : Option String
  deriving Repr, DecidableEq

/-- The initial `useState` values of `App.tsx`. -/
def initialAppState : AppState :=
  { storyPages := []
  , storyTitle := ""
  , generationStatus := ⟨false, ""⟩
  , videoUrl := none
  , videoGenerationStatus := ⟨false, ""⟩
  , error := none }

/-- `handleGenerateStory` (App.tsx lines 35-91): reset the UI state, generate
the title, then the structured story content, then run the per-page loop;
the catch block turns any failure into the single generic error and clears
the loading flag. The intermediate per-call status messages are each
overwritten by the next state update; the returned state is the state after
the handler finishes. -/
def handleGenerateStory (numPages : Nat) (o : Oracle) (s0 : AppState) : AppState :=
  let s1 : AppState :=
    { s0 with
      generationStatus := ⟨true, "Invocando um título encantado..."⟩
      error := none
      storyPages := []
      storyTitle := ""
      videoUrl := none
      videoGenerationStatus := ⟨false, ""⟩ }
  match generateTitleFromPlot o.titleResp with
  | .error _ =>
    { s1 with error := some storyGenericError, generationStatus := ⟨false, ""⟩ }
  | .ok title =>
    let s2 : AppState :=
      { s1 with
        storyTitle := title
        generationStatus := ⟨true, "Tecendo os fios da sua aventura..."⟩ }
    match generateStoryContent numPages o.contentResp with
    | .error _ =>
      { s2 with error := some storyGenericError, generationStatus := ⟨false, ""⟩ }
    | .ok storyContent =>
      match runPages o (buildPrompts storyContent 0) 0 [] with
      | (pages, true) =>
        { s2 with storyPages := pages, generationStatus := ⟨false, ""⟩ }
      | (pages, false) =>
        { s2 with
          storyPages := pages
          error := some storyGenericError
          generationStatus := ⟨false, ""⟩ }

/-- Pages committed by the whole pipeline before its first failure (zero when
the title or structure stage fails, since the page list is reset at the start
of the handler). -/
def committedPages (numPages : Nat) (o : Oracle) : Nat :=
  match generateTitleFromPlot o.titleResp with
  | .error _ => 0
  | .ok _ =>
    match generateStoryContent numPages o.contentResp with
    | .error _ => 0
    | .ok storyContent => completedPrefix o (buildPrompts storyContent 0) 0

/-- Concrete oracle: a fully successful run for two pages. -/
def successOracle : Oracle :=
  { titleResp := .ok "O Conto da Lanterna"
  , contentResp := some [⟨"Era uma vez.", "uma raposa"⟩, ⟨"Fim.", "uma lanterna"⟩]
  , imageResp := fun _ => some ("image/png", "QUJD")
  , speechResp := fun _ => some "UENN" }

/-- Concrete oracle: the structured-content payload is well-formed but its
single page has an empty `storyText`; every remote call succeeds. -/
def emptyTextOracle : Oracle :=
  { titleResp := .ok "O Conto da Lanterna"
  , contentResp := some [⟨"", "uma raposa com uma lanterna"⟩]
  , imageResp := fun _ => some ("image/png", "QUJD")
  , speechResp := fun _ => some "UENN" }

/-- Concrete oracle: the structured-content payload holds 2 items (so a
request for 3 pages sees a count mismatch); all other calls succeed. -/
def mismatchOracle : Oracle :=
  { titleResp := .ok "O Conto da Lanterna"
  , contentResp := some [⟨"Era uma vez.", "uma raposa"⟩, ⟨"Fim.", "uma lanterna"⟩]
  , imageResp := fun _ => some ("image/png", "QUJD")
  , speechResp := fun _ => some "UENN" }

/-- Concrete two-element structured-content payload. -/
def twoItems : List StoryContentResponse :=
  [⟨"pagina um", "prompt um"⟩, ⟨"pagina dois", "prompt dois"⟩]

/-! ## Per-page mutation (`App.tsx` `handleUpdatePage`,
`StorybookView.tsx` regenerate handlers) -/

/-- `handleUpdatePage` (App.tsx lines 138-142):
`prevPages.map(p => p.pageNumber === updatedPage.pageNumber ? updatedPage : p)`. -/
def handleUpdatePage (pages : List StoryPageData) (updatedPage : StoryPageData) :
    List StoryPageData :=
  pages.map (fun p =>
    if p.pageNumber = updatedPage.pageNumber then updatedPage else p)

/-- The page passed to `onUpdatePage` by `handleRegenerateImage`
(StorybookView.tsx line 283): `{ ...page, imageUrl: newImageUrl }`. -/
def regenerateImagePage (page : StoryPageData) (newImageUrl : String) :
    StoryPageData :=
  { page with imageUrl := newImageUrl }

/-- The page passed to `onUpdatePage` by `handleRegenerateNarration` and
`handleVoiceChange` (StorybookView.tsx lines 252 and 267):
`{ ...page, audioData: newAudioData }`. -/
def regenerateNarrationPage (page : StoryPageData) (newAudioData : String) :
    StoryPageData :=
  { page with audioData := newAudioData }

/-- A concrete page list with a duplicated `pageNumber`. -/
def dupPages : List StoryPageData :=
  [⟨1, "texto a", "prompt a", "url a", "audio a"⟩,
   ⟨1, "texto b", "prompt b", "url b", "audio b"⟩]

/-- A concrete page list with distinct page numbers. -/
def distinctPages : List StoryPageData :=
  [⟨1, "texto a", "prompt a", "url a", "audio a"⟩,
   ⟨2, "texto b", "prompt b", "url b", "audio b"⟩]

/-- The first page of `distinctPages` with a regenerated image. -/
def updatedFirstPage : StoryPageData :=
  regenerateImagePage ⟨1, "texto a", "prompt a", "url a", "audio a"⟩ "url novo"

/-! ## Video generation (`App.tsx` `handleGenerateVideo`) -/

/-- The access-problem message of the video catch block (App.tsx line 127). -/
def veoAccessError : String :=
  "Sua chave de API pode não ter acesso ao Veo. Por favor, selecione uma chave diferente e tente novamente. Visite ai.google.dev/gemini-api/docs/billing para mais informações."

/-- The generic video failure message (App.tsx line 131). -/
def videoGenericError : String :=
  "Ocorreu um erro ao gerar o vídeo. Por favor, tente novamente."

/-- The provider condition tested by the video catch block (App.tsx
line 126). -/
def entityNotFound : String := "Requested entity was not found"

/-- Model of JavaScript `String.prototype.includes` on char lists: the
needle occurs as a contiguous sublist. -/
def containsSub (needle : List Char) : List Char → Bool
  | [] => needle.isEmpty
  | c :: rest => needle.isPrefixOf (c :: rest) || containsSub needle rest

/-- `hay.includes(needle)` from JavaScript. -/
def strIncludes (hay needle : String) : Bool := containsSub needle.data hay.data

/-- `handleGenerateVideo` (App.tsx lines 93-135). `hasKey` is the result of
`window.aistudio.hasSelectedApiKey()`; `outcome` is the serialized result of
the video job (`.error e` models a thrown error whose `JSON.stringify` is
`e`). Returns the final state plus two booleans: whether the pre-call
key-selection dialog was opened (`!hasKey`), and whether the catch block
triggered key re-selection. The in-flight status messages are each
overwritten before the handler returns. -/
def handleGenerateVideo (hasKey : Bool) (outcome : Except String String)
    (s0 : AppState) : AppState × Bool × Bool :=
  if s0.storyPages.isEmpty then (s0, false, false)
  else
    let s1 : AppState := { s0 with videoUrl := none, error := none }
    let preKeyPrompt := !hasKey
    match outcome with
    | .ok url =>
      ({ s1 with
          videoUrl := some url
          videoGenerationStatus := ⟨false, "Seu desenho animado está pronto!"⟩ },
       preKeyPrompt, false)
    | .error errorString =>
      if strIncludes errorString entityNotFound then
        ({ s1 with
            error := some veoAccessError
            videoGenerationStatus := ⟨false, ""⟩ },
         preKeyPrompt, true)
      else
        ({ s1 with
            error := some videoGenericError
            videoGenerationStatus := ⟨false, ""⟩ },
         preKeyPrompt, false)

/-- A concrete serialized video-job error containing the missing-entity
condition. -/
def veoErrorString : String :=
  "Erro na operação de vídeo: Requested entity was not found."

/-- A state holding one generated page, as left by a 1-page generation. -/
def onePageState : AppState :=
  { initialAppState with
    storyPages := [⟨1, "Era uma vez.", "uma raposa", "data:image/png;base64,QUJD", "UENN"⟩] }

/-! ## Page-count input (`components/StoryGeneratorForm.tsx`) -/

/-- The declared `max` attribute of the page-count number input in the
current form, `src/components/StoryGeneratorForm.tsx` line 167. -/
def numPagesInputMax : Nat := 10

/-- The declared `max` attribute in the `src/unnamed/part_002` and
`src/unnamed/part_003` revisions of the form (line 220). -/
def numPagesInputMax_rev : Nat := 50

/-- The input's onChange handler (StoryGeneratorForm.tsx line 165, identical
in the revisions): `setNumPages(Math.max(1, parseInt(e.target.value, 10)) || 1)`.
`none` models a `NaN` parse; `Math.max(1, NaN)` is `NaN`, which is falsy, so
`|| 1` stores 1; otherwise `max 1 v` is at least 1, hence truthy and kept. -/
def setNumPagesFromInput (parsed : Option Int) : Int :=
  match parsed with
  | none => 1
  | some v => max 1 v

/-! ## Audio/view event model (`components/StorybookView.tsx`)

The component's audio behaviour is driven by the view-change effect
(lines 122-150), the play/pause handlers (lines 175-199 and 219-242), the
cover-audio generation handler (lines 201-217) and the `onended` callbacks.
`pagePlaying` / `coverPlaying` model an `AudioBufferSourceNode` that has been
started and not yet stopped (i.e. an audible source); `stop()` silences the
source immediately, so the model clears the flag at the stopping call site
(the React `isPlaying` state catches up through `onended`). -/

/-- The audio-relevant state of `StorybookView`. -/
structure ViewAudioState where
  cursor : Nat
  pagePlaying : Bool
  coverPlaying : Bool
  pageBuffer : Bool
  coverReady : Bool
  deriving Repr, DecidableEq

/-- The UI events that touch the audio state. -/
inductive ViewEvent where
  | next
  | prev
  | jumpCover
  | playPausePage
  | playPauseCover
  | coverAudioLoaded
  | pageDecodeDone
  | pageUpdated
  | pageEnded
  | coverEnded
  deriving Repr, DecidableEq

/-- The view-change `useEffect` (StorybookView.tsx lines 122-150): on every
run it stops the page-audio source and drops the decoded buffer; it stops
the cover source when the (new) view is not the cover. The eager re-decode
it kicks off for a text view completes later as a `pageDecodeDone` event. -/
def viewChangeEffect (newCursor : Nat) (s : ViewAudioState) : ViewAudioState :=
  { s with
    cursor := newCursor
    pagePlaying := false
    pageBuffer := false
    coverPlaying := if isCover newCursor then s.coverPlaying else false }

/-- One step of the view/audio event system. `playPausePage` is guarded as in
`handlePlayPause` (line 176: needs a decoded buffer and a text view);
`playPauseCover` is only reachable from the cover-only button (line 335) and
guarded as in `handlePlayPauseCoverAudio` (line 220); `coverAudioLoaded`
comes from `handleGenerateCoverAudio`, whose button renders only on the
cover; `pageDecodeDone` is the unguarded `.then` of `decodeAudioData`
(line 144) and may fire at any time; `pageUpdated` is the effect re-run
caused by a `page` dependency change; the `*Ended` events are the `onended`
callbacks. -/
def viewStep (totalPages : Nat) (s : ViewAudioState) : ViewEvent → ViewAudioState
  | .next => viewChangeEffect (goToNext totalPages s.cursor) s
  | .prev => viewChangeEffect (goToPrevious totalPages s.cursor) s
  | .jumpCover => viewChangeEffect 0 s
  | .playPausePage =>
    if isTextView s.cursor && s.pageBuffer then
      { s with pagePlaying := !s.pagePlaying }
    else s
  | .playPauseCover =>
    if isCover s.cursor && s.coverReady then
      { s with coverPlaying := !s.coverPlaying }
    else s
  | .coverAudioLoaded =>
    if isCover s.cursor then { s with coverReady := true } else s
  | .pageDecodeDone => { s with pageBuffer := true }
  | .pageUpdated => viewChangeEffect s.cursor s
  | .pageEnded => { s with pagePlaying := false }
  | .coverEnded => { s with coverPlaying := false }

/-- The initial state of the component: cover view, nothing playing. -/
def initialViewState : ViewAudioState :=
  { cursor := 0
  , pagePlaying := false
  , coverPlaying := false
  , pageBuffer := false
  , coverReady := false }

/-- States reachable from the initial state through the event system. -/
inductive ReachableView (totalPages : Nat) : ViewAudioState → Prop where
  | init : ReachableView totalPages initialViewState
  | step (s : ViewAudioState) (e : ViewEvent) :
      ReachableView totalPages s → ReachableView totalPages (viewStep totalPages s e)

/-- The inductive audio invariant: an audible page source only exists on a
text view, an audible cover source only on the cover. -/
def AudioInv (s : ViewAudioState) : Prop :=
  (s.pagePlaying = true → isTextView s.cursor = true) ∧
  (s.coverPlaying = true → isCover s.cursor = true)

/-! ## Stale audio-decode race (`StorybookView.tsx` lines 138-148)

The view-change effect nulls `audioBufferRef.current` and, on a text view,
starts an asynchronous `decodeAudioData(...).then(buffer => {
audioBufferRef.current = buffer })`. The promise callback assigns the ref
unconditionally — there is no generation/cursor token — so a decode started
for an earlier cursor can land after further navigation. -/

/-- The decode-race-relevant state: the cursor, which page's decoded buffer
the ref currently holds (if any), and the pages with an in-flight decode. -/
structure DecodeRaceState where
  cursor : Nat
  audioBuffer : Option Nat
  pending : List Nat
  deriving Repr, DecidableEq

/-- Events: a cursor change (the effect re-runs: ref nulled, decode started
when the new view is a text view), or the completion of one in-flight
decode, whose callback stores the buffer into the ref unconditionally, as in
the source. -/
inductive DecodeEvent where
  | move (newCursor : Nat)
  | decodeDone (page : Nat)
  deriving Repr, DecidableEq

/-- One step of the decode-race model. -/
def decodeStep (s : DecodeRaceState) : DecodeEvent → DecodeRaceState
  | .move c =>
    { cursor := c
    , audioBuffer := none
    , pending := if isTextView c then s.pending ++ [pageIndex c] else s.pending }
  | .decodeDone j =>
    if j ∈ s.pending then
      { s with audioBuffer := some j, pending := s.pending.erase j }
    else s

/-- The component before any navigation: cover view, no buffer, no decode. -/
def initialDecodeState : DecodeRaceState :=
  { cursor := 0, audioBuffer := none, pending := [] }

/-- Run a sequence of decode-race events. -/
def runDecode (s : DecodeRaceState) (es : List DecodeEvent) : DecodeRaceState :=
  es.foldl decodeStep s

/-- The page whose buffer `handlePlayPause` would start: it plays
`audioBufferRef.current` whenever it is on a text view and a buffer is
present (StorybookView.tsx lines 176-186). -/
def playedBuffer (s : DecodeRaceState) : Option Nat :=
  if isTextView s.cursor then s.audioBuffer else none

/-- Four `next` presses from the cover of a 2-page book (reaching the text
view of page 2) followed by the late arrival of the decode started on the
text view of page 1. -/
def staleDecodeTrace : List DecodeEvent :=
  [.move 1, .move 2, .move 3, .move 4, .decodeDone 0]

/-! ## Audio decoding (`StorybookView.tsx`, `decodeAudioData`)

`decodeAudioData` reads the byte array as a little-endian `Int16Array` and
writes `dataInt16[i * numChannels + channel] / 32768.0` into each channel.
Each such quotient has magnitude at most 1 and at most 15 significand bits,
so it is exactly representable in the `Float32Array` channel data; the
samples are therefore modelled as exact rationals. -/

/-- One little-endian signed 16-bit value from two bytes. -/
def toInt16 (lo hi : Nat) : Int :=
  if lo + 256 * hi < 32768 then ((lo + 256 * hi : Nat) : Int)
  else ((lo + 256 * hi : Nat) : Int) - 65536

/-- `new Int16Array(data.buffer)`: consecutive little-endian byte pairs as
signed 16-bit values. -/
def bytesToInt16 : List Nat → List Int
  | lo :: hi :: rest => toInt16 lo hi :: bytesToInt16 rest
  | _ => []

/-- `decodeAudioData` (StorybookView.tsx lines 46-63):
`frameCount = dataInt16.length / numChannels`, and channel `channel` holds
`dataInt16[i * numChannels + channel] / 32768.0` for `i < frameCount`. -/
def decodeAudioData (data : List Nat) (numChannels : Nat) : List (List ℚ) :=
  let dataInt16 := bytesToInt16 data
  let frameCount := dataInt16.length / numChannels
  (List.range numChannels).map fun channel =>
    (List.range frameCount).map fun i =>
      ((dataInt16.getD (i * numChannels + channel) 0 : Int) : ℚ) / 32768

/-- Concrete PCM bytes: the samples 0, 32767 and -32768. -/
def sampleBytes : List Nat := [0, 0, 255, 127, 0, 128]

/-- A navigation event: the `next` or `previous` button. -/
inductive NavMove where
  | next
  | prev
  deriving Repr, DecidableEq

/-- Apply one navigation move to the view cursor. -/
def applyMove (totalPages : Nat) (cur : Nat) : NavMove → Nat
  | .next => goToNext totalPages cur
  | .prev => goToPrevious totalPages cur

/-- Apply a sequence of navigation moves starting from a cursor value. -/
def applyMoves (totalPages : Nat) (cur : Nat) : List NavMove → Nat
  | [] => cur
  | m :: ms => applyMoves totalPages (applyMove totalPages cur m) ms

/-! ## Pipeline lemmas -/

theorem generateImage_ok {r : Option (String × String)} {url : String}
    (h : generateImage r = .ok url) : IsDataUri url := by
  match r with
  | none => simp [generateImage] at h
  | some (m, d) =>
    simp [generateImage] at h
    exact ⟨m, d, h.symm⟩

theorem generateSpeech_ok {r : Option String} {a : String}
    (h : generateSpeech r = .ok a) : a ≠ "" := by
  match r with
  | none => simp [generateSpeech] at h
  | some s =>
    simp only [generateSpeech] at h
    split at h
    · exact absurd h (by simp)
    · rename_i hne
      injection h with h
      subst h
      exact hne

theorem generateStoryContent_ok {numPages : Nat}
    {payload : Option (List StoryContentResponse)}
    {l : List StoryContentResponse}
    (h : generateStoryContent numPages payload = .ok l) :
    payload = some l ∧ l ≠ [] ∧ l.length = numPages := by
  match payload with
  | none => simp [generateStoryContent] at h
  | some parsed =>
    simp only [generateStoryContent] at h
    split at h
    · exact absurd h (by simp)
    · split at h
      · exact absurd h (by simp)
      · rename_i hne hlen
        cases h
        exact ⟨rfl, by simpa [List.isEmpty_iff] using hne, by omega⟩

theorem buildPrompts_length (l : List StoryContentResponse) (i : Nat) :
    (buildPrompts l i).length = l.length := by
  induction l generalizing i with
  | nil => rfl
  | cons c rest ih => simp [buildPrompts, ih]

theorem buildPrompts_take_map_pn (l : List StoryContentResponse) (i k : Nat)
    (hk : k ≤ l.length) :
    ((buildPrompts l i).take k).map (fun p => p.pageNumber) =
      List.range' (i + 1) k := by
  induction l generalizing i k with
  | nil =>
    have : k = 0 := by simpa using hk
    subst this
    rfl
  | cons c rest ih =>
    cases k with
    | zero => rfl
    | succ k =>
      simp only [buildPrompts, List.take_succ_cons, List.map_cons, List.range'_succ]
      exact congrArg (List.cons (i + 1)) (ih (i + 1) k (by simpa using hk))

theorem completedPrefix_le (o : Oracle) (ps : List PagePrompt) (i : Nat) :
    completedPrefix o ps i ≤ ps.length := by
  induction ps generalizing i with
  | nil => simp [completedPrefix]
  | cons p rest ih =>
    simp only [completedPrefix, List.length_cons]
    split
    · exact Nat.succ_le_succ (ih (i + 1))
    · omega

theorem runPages_map_pn (o : Oracle) (ps : List PagePrompt) (i : Nat)
    (acc : List StoryPageData) :
    (runPages o ps i acc).1.map (fun p => p.pageNumber) =
      acc.map (fun p => p.pageNumber) ++
        ((ps.take (completedPrefix o ps i)).map (fun p => p.pageNumber)) := by
  induction ps generalizing i acc with
  | nil => simp [runPages, completedPrefix]
  | cons p rest ih =>
    simp only [runPages, completedPrefix]
    cases himg : generateImage (o.imageResp i) with
    | error e => simp
    | ok imageUrl =>
      cases hsp : generateSpeech (o.speechResp i) with
      | error e => simp
      | ok audioData =>
        simp only [List.take_succ_cons, List.map_cons]
        rw [ih (i + 1)]
        simp

theorem runPages_done_iff (o : Oracle) (ps : List PagePrompt) (i : Nat)
    (acc : List StoryPageData) :
    (runPages o ps i acc).2 = true ↔ completedPrefix o ps i = ps.length := by
  induction ps generalizing i acc with
  | nil => simp [runPages, completedPrefix]
  | cons p rest ih =>
    simp only [runPages, completedPrefix]
    cases himg : generateImage (o.imageResp i) with
    | error e =>
      simp
    | ok imageUrl =>
      cases hsp : generateSpeech (o.speechResp i) with
      | error e => simp
      | ok audioData =>
        simp only [List.length_cons]
        rw [ih (i + 1)]
        omega

theorem runPages_mem (o : Oracle) (ps : List PagePrompt) (i : Nat)
    (acc : List StoryPageData) :
    ∀ pg ∈ (runPages o ps i acc).1,
      pg ∈ acc ∨ (IsDataUri pg.imageUrl ∧ pg.audioData ≠ "") := by
  induction ps generalizing i acc with
  | nil =>
    intro pg hpg
    exact Or.inl (by simpa [runPages] using hpg)
  | cons p rest ih =>
    intro pg hpg
    simp only [runPages] at hpg
    cases himg : generateImage (o.imageResp i) with
    | error e =>
      rw [himg] at hpg
      exact Or.inl hpg
    | ok imageUrl =>
      rw [himg] at hpg
      cases hsp : generateSpeech (o.speechResp i) with
      | error e =>
        rw [hsp] at hpg
        exact Or.inl hpg
      | ok audioData =>
        rw [hsp] at hpg
        rcases ih (i + 1) _ pg hpg with hin | hprops
        · rcases List.mem_append.mp hin with hin | hnew
          · exact Or.inl hin
          · right
            have : pg = ⟨p.pageNumber, p.text, p.imagePrompt, imageUrl, audioData⟩ := by
              simpa using hnew
            subst this
            exact ⟨generateImage_ok himg, generateSpeech_ok hsp⟩
        · exact Or.inr hprops

theorem goToNext_lt (totalPages cur : Nat) :
    goToNext totalPages cur < totalViews totalPages := by
  unfold goToNext totalViews at *
  split <;> omega

theorem goToPrevious_lt (totalPages cur : Nat)
    (h : cur < totalViews totalPages) :
    goToPrevious totalPages cur < totalViews totalPages := by
  unfold goToPrevious totalViews at *
  split <;> omega

theorem applyMove_lt (totalPages cur : Nat) (m : NavMove)
    (h : cur < totalViews totalPages) :
    applyMove totalPages cur m < totalViews totalPages := by
  cases m with
  | next => exact goToNext_lt totalPages cur
  | prev => exact goToPrevious_lt totalPages cur h

theorem applyMoves_lt (totalPages : Nat) (ms : List NavMove) (cur : Nat)
    (h : cur < totalViews totalPages) :
    applyMoves totalPages cur ms < totalViews totalPages := by
  induction ms generalizing cur with
  | nil => exact h
  | cons m ms ih => exact ih _ (applyMove_lt totalPages cur m h)

/-- C4: for every page count N ≥ 1 and every sequence of next/previous
transitions starting from the cover, the view cursor stays in [0, 1+2N);
`next` at the last view (1+2N−1) wraps to 0, and `previous` at 0 wraps to
1+2N−1. -/
theorem viewCursor_range_and_wrap (N : Nat) (hN : 1 ≤ N) (ms : List NavMove) :
    applyMoves N 0 ms < 1 + 2 * N ∧
    goToNext N (1 + 2 * N - 1) = 0 ∧
    goToPrevious N 0 = 1 + 2 * N - 1 := by
  have htv : totalViews N = 1 + 2 * N := by unfold totalViews; omega
  refine ⟨?_, ?_, ?_⟩
  · have := applyMoves_lt N ms 0 (by unfold totalViews; omega)
    omega
  · unfold goToNext
    rw [htv]
    simp
  · unfold goToPrevious
    rw [htv]
    simp

/-- Witness for `viewCursor_range_and_wrap` at N = 2 and a concrete
move sequence. -/
theorem viewCursor_range_and_wrap_witness :
    1 ≤ 2 ∧
    (applyMoves 2 0 [.next, .next, .prev, .prev, .prev] < 1 + 2 * 2 ∧
     goToNext 2 (1 + 2 * 2 - 1) = 0 ∧
     goToPrevious 2 0 = 1 + 2 * 2 - 1) :=
  ⟨by decide, viewCursor_range_and_wrap 2 (by decide) [.next, .next, .prev, .prev, .prev]⟩

/-- C1 counterexample: a well-formed provider payload whose single page has
empty `storyText` passes every repository-side check, so the pipeline
completes without error and publishes a page whose text is empty. -/
theorem generation_empty_text_completes :
    (handleGenerateStory 1 emptyTextOracle initialAppState).error = none ∧
    (handleGenerateStory 1 emptyTextOracle initialAppState).storyPages.map
      (fun p => p.text) = [""] := by
  constructor <;> rfl

/-- C1 (amended): for every requested page count N ≥ 1, if the generation
pipeline runs to completion without error, the published page list contains
exactly N StoryPage entries whose pageNumber fields are 1..N in order, each
with a data-URI image reference and non-empty audio data (page text is passed
through from the provider unchecked and may be empty). -/
theorem generation_success_pages (numPages : Nat) (o : Oracle) (s0 : AppState)
    (hN : 1 ≤ numPages)
    (hdone : (handleGenerateStory numPages o s0).error = none) :
    (handleGenerateStory numPages o s0).storyPages.length = numPages ∧
    (handleGenerateStory numPages o s0).storyPages.map (fun p => p.pageNumber) =
      List.range' 1 numPages ∧
    (∀ pg ∈ (handleGenerateStory numPages o s0).storyPages,
      IsDataUri pg.imageUrl ∧ pg.audioData ≠ "") ∧
    (handleGenerateStory numPages o s0).generationStatus.isLoading = false := by
  unfold handleGenerateStory at hdone ⊢
  cases ht : generateTitleFromPlot o.titleResp with
  | error e =>
    rw [ht] at hdone
    simp at hdone
  | ok title =>
    rw [ht] at hdone
    dsimp only at hdone ⊢
    cases hc : generateStoryContent numPages o.contentResp with
    | error e =>
      rw [hc] at hdone
      simp at hdone
    | ok content =>
      rw [hc] at hdone
      dsimp only at hdone ⊢
      obtain ⟨-, -, hlen⟩ := generateStoryContent_ok hc
      rcases hrun : runPages o (buildPrompts content 0) 0 [] with ⟨pages, flag⟩
      rw [hrun] at hdone
      cases flag with
      | false =>
        simp at hdone
      | true =>
        dsimp only at hdone ⊢
        have hcp : completedPrefix o (buildPrompts content 0) 0 =
            (buildPrompts content 0).length := by
          have := runPages_done_iff o (buildPrompts content 0) 0 []
          rw [hrun] at this
          simpa using this
        have hmap := runPages_map_pn o (buildPrompts content 0) 0 []
        rw [hrun] at hmap
        simp only [List.map_nil, List.nil_append] at hmap
        rw [hcp, List.take_length] at hmap
        have hrange := buildPrompts_take_map_pn content 0 content.length (le_refl _)
        rw [List.take_of_length_le (le_of_eq (buildPrompts_length content 0))] at hrange
        simp only [Nat.zero_add] at hrange
        rw [hrange, hlen] at hmap
        have hmem := runPages_mem o (buildPrompts content 0) 0 []
        rw [hrun] at hmem
        refine ⟨?_, by simpa using hmap, ?_, rfl⟩
        · have := congrArg List.length hmap
          simpa using this
        · intro pg hpg
          rcases hmem pg (by simpa using hpg) with h | h
          · simp at h
          · exact h

/-- Witness for `generation_success_pages` at the concrete `successOracle`
with two requested pages. -/
theorem generation_success_pages_witness :
    (1 ≤ 2 ∧ (handleGenerateStory 2 successOracle initialAppState).error = none) ∧
    ((handleGenerateStory 2 successOracle initialAppState).storyPages.length = 2 ∧
     (handleGenerateStory 2 successOracle initialAppState).storyPages.map
       (fun p => p.pageNumber) = List.range' 1 2 ∧
     (∀ pg ∈ (handleGenerateStory 2 successOracle initialAppState).storyPages,
       IsDataUri pg.imageUrl ∧ pg.audioData ≠ "") ∧
     (handleGenerateStory 2 successOracle initialAppState).generationStatus.isLoading = false) :=
  ⟨⟨by decide, by rfl⟩,
   generation_success_pages 2 successOracle initialAppState (by decide) (by rfl)⟩

/-- C2 (amended): the `services/geminiService.ts` path of
`generateStoryContent` succeeds exactly on a well-formed non-empty list whose
length equals the requested `numPages`, while the `part_004` revision
succeeds on every well-formed non-empty list, performing no count check. -/
theorem storyContent_validation (numPages : Nat)
    (payload : Option (List StoryContentResponse))
    (l : List StoryContentResponse) :
    (generateStoryContent numPages payload = .ok l ↔
      payload = some l ∧ l ≠ [] ∧ l.length = numPages) ∧
    (generateStoryContent_part004 numPages payload = .ok l ↔
      payload = some l ∧ l ≠ []) := by
  constructor
  · constructor
    · exact generateStoryContent_ok
    · rintro ⟨rfl, hne, hlen⟩
      simp [generateStoryContent, List.isEmpty_iff, hne, hlen]
  · constructor
    · intro h
      match payload, h with
      | some parsed, h =>
        simp only [generateStoryContent_part004] at h
        split at h
        · exact absurd h (by simp)
        · rename_i hne
          injection h with h
          subst h
          exact ⟨rfl, by simpa [List.isEmpty_iff] using hne⟩
    · rintro ⟨rfl, hne⟩
      simp [generateStoryContent_part004, List.isEmpty_iff, hne]

/-- C2 counterexample: a 2-element payload against a request for 3 pages is
accepted by the `part_004` revision (no validation error), refuting strict
count validation in every path; the `geminiService.ts` path rejects it. -/
theorem storyContent_part004_count_mismatch :
    generateStoryContent_part004 3 (some twoItems) = .ok twoItems ∧
    generateStoryContent 3 (some twoItems) = .error () := by
  constructor <;> rfl

/-- C3: every remote-call failure in the generation pipeline aborts the
remaining pipeline, resets the loading flag to false, surfaces the single
generic user-facing error, and commits no pages beyond the ones fully
completed before the failure (which are exactly pages 1..k for the number k
of pages completed before the failing call). -/
theorem generation_failure_aborts (numPages : Nat) (o : Oracle) (s0 : AppState)
    (hN : 1 ≤ numPages) (e : String)
    (he : (handleGenerateStory numPages o s0).error = some e) :
    e = storyGenericError ∧
    (handleGenerateStory numPages o s0).generationStatus.isLoading = false ∧
    (handleGenerateStory numPages o s0).storyPages.map (fun p => p.pageNumber) =
      List.range' 1 (committedPages numPages o) ∧
    committedPages numPages o < numPages := by
  unfold handleGenerateStory at he ⊢
  unfold committedPages
  cases ht : generateTitleFromPlot o.titleResp with
  | error err =>
    rw [ht] at he
    dsimp only at he ⊢
    simp at he
    exact ⟨he.symm, rfl, rfl, by omega⟩
  | ok title =>
    rw [ht] at he
    dsimp only at he ⊢
    cases hc : generateStoryContent numPages o.contentResp with
    | error err =>
      rw [hc] at he
      dsimp only at he ⊢
      simp at he
      exact ⟨he.symm, rfl, rfl, by omega⟩
    | ok content =>
      rw [hc] at he
      dsimp only at he ⊢
      obtain ⟨-, -, hlen⟩ := generateStoryContent_ok hc
      rcases hrun : runPages o (buildPrompts content 0) 0 [] with ⟨pages, flag⟩
      rw [hrun] at he
      cases flag with
      | true =>
        simp at he
      | false =>
        dsimp only at he ⊢
        simp at he
        have hcp : completedPrefix o (buildPrompts content 0) 0 ≠
            (buildPrompts content 0).length := by
          have := runPages_done_iff o (buildPrompts content 0) 0 []
          rw [hrun] at this
          simpa using this.not.mp (by simp)
        have hle := completedPrefix_le o (buildPrompts content 0) 0
        have hmap := runPages_map_pn o (buildPrompts content 0) 0 []
        rw [hrun] at hmap
        simp only [List.map_nil, List.nil_append] at hmap
        have htake := buildPrompts_take_map_pn content 0
          (completedPrefix o (buildPrompts content 0) 0)
          (by rw [← buildPrompts_length content 0]; exact hle)
        rw [List.map_take] at hmap htake
        refine ⟨he.symm, rfl, ?_, ?_⟩
        · simpa [hmap] using htake
        · rw [buildPrompts_length] at hcp hle
          omega

/-- Witness for `generation_failure_aborts`: the spec's own scenario, a
2-element structured response when 3 pages were requested. -/
theorem generation_failure_aborts_witness :
    (1 ≤ 3 ∧
     (handleGenerateStory 3 mismatchOracle initialAppState).error =
       some storyGenericError) ∧
    (storyGenericError = storyGenericError ∧
     (handleGenerateStory 3 mismatchOracle initialAppState).generationStatus.isLoading = false ∧
     (handleGenerateStory 3 mismatchOracle initialAppState).storyPages.map
       (fun p => p.pageNumber) = List.range' 1 (committedPages 3 mismatchOracle) ∧
     committedPages 3 mismatchOracle < 3) :=
  ⟨⟨by decide, by rfl⟩,
   generation_failure_aborts 3 mismatchOracle initialAppState (by decide)
     storyGenericError (by rfl)⟩

/-- C5 counterexample: with a duplicated pageNumber, regenerating the first
page's image through `handleUpdatePage` also overwrites the second page
(its text changes from "texto b" to "texto a"), so the claim fails for
arbitrary page lists. -/
theorem handleUpdatePage_duplicate_alters_other :
    (handleUpdatePage dupPages
      (regenerateImagePage ⟨1, "texto a", "prompt a", "url a", "audio a"⟩
        "url novo")).map (fun p => p.text) = ["texto a", "texto a"] ∧
    dupPages.map (fun p => p.text) = ["texto a", "texto b"] := by
  constructor <;> rfl

/-- C5 (amended): provided the pages' pageNumber fields are pairwise
distinct (as the generation pipeline guarantees), regenerating one page's
image or narration through `handleUpdatePage` keeps that page's pageNumber,
text and imagePrompt, leaves every other position unchanged, and preserves
the list's length and order. -/
theorem handleUpdatePage_frame (pages : List StoryPageData) (i : Nat)
    (newData : String) (u : StoryPageData)
    (hi : i < pages.length)
    (hnd : (pages.map (fun p => p.pageNumber)).Nodup)
    (hu : u = regenerateImagePage (pages.get ⟨i, hi⟩) newData ∨
          u = regenerateNarrationPage (pages.get ⟨i, hi⟩) newData) :
    (handleUpdatePage pages u).length = pages.length ∧
    (handleUpdatePage pages u)[i]?.map (fun p => p.pageNumber) =
      some (pages.get ⟨i, hi⟩).pageNumber ∧
    (handleUpdatePage pages u)[i]?.map (fun p => p.text) =
      some (pages.get ⟨i, hi⟩).text ∧
    (handleUpdatePage pages u)[i]?.map (fun p => p.imagePrompt) =
      some (pages.get ⟨i, hi⟩).imagePrompt ∧
    (∀ j, j ≠ i → (handleUpdatePage pages u)[j]? = pages[j]?) := by
  have hpn : u.pageNumber = (pages.get ⟨i, hi⟩).pageNumber := by
    rcases hu with rfl | rfl <;> rfl
  have hfi : (handleUpdatePage pages u)[i]? = some u := by
    simp only [handleUpdatePage, List.getElem?_map,
      List.getElem?_eq_getElem hi, Option.map_some', List.get_eq_getElem]
        at hpn ⊢
    rw [if_pos hpn.symm]
  refine ⟨by simp [handleUpdatePage], ?_, ?_, ?_, ?_⟩
  · rw [hfi, Option.map_some', hpn]
  · rw [hfi, Option.map_some']
    rcases hu with rfl | rfl <;> rfl
  · rw [hfi, Option.map_some']
    rcases hu with rfl | rfl <;> rfl
  · intro j hj
    by_cases hjl : j < pages.length
    · have hne : (pages.get ⟨j, hjl⟩).pageNumber ≠ u.pageNumber := by
        rw [hpn]
        intro hEq
        have hbj : j < (pages.map (fun p => p.pageNumber)).length := by
          simpa using hjl
        have hbi : i < (pages.map (fun p => p.pageNumber)).length := by
          simpa using hi
        have hget : (pages.map (fun p => p.pageNumber))[j] =
            (pages.map (fun p => p.pageNumber))[i] := by
          rw [List.getElem_map, List.getElem_map]
          simpa using hEq
        exact hj ((List.Nodup.getElem_inj_iff hnd).mp hget)
      simp only [handleUpdatePage, List.getElem?_map,
        List.getElem?_eq_getElem hjl, Option.map_some', List.get_eq_getElem] at *
      rw [if_neg hne]
    · have hnone : pages[j]? = none := List.getElem?_eq_none (by omega)
      simp [handleUpdatePage, List.getElem?_map, hnone]

/-- Witness for `handleUpdatePage_frame` on `distinctPages`, regenerating
the first page's image. -/
theorem handleUpdatePage_frame_witness :
    ((0 : Nat) < distinctPages.length ∧
     (distinctPages.map (fun p => p.pageNumber)).Nodup ∧
     (updatedFirstPage =
        regenerateImagePage (distinctPages.get ⟨0, by decide⟩) "url novo" ∨
      updatedFirstPage =
        regenerateNarrationPage (distinctPages.get ⟨0, by decide⟩) "url novo")) ∧
    ((handleUpdatePage distinctPages updatedFirstPage).length =
       distinctPages.length ∧
     (handleUpdatePage distinctPages updatedFirstPage)[0]?.map
       (fun p => p.pageNumber) =
         some (distinctPages.get ⟨0, by decide⟩).pageNumber ∧
     (handleUpdatePage distinctPages updatedFirstPage)[0]?.map
       (fun p => p.text) = some (distinctPages.get ⟨0, by decide⟩).text ∧
     (handleUpdatePage distinctPages updatedFirstPage)[0]?.map
       (fun p => p.imagePrompt) =
         some (distinctPages.get ⟨0, by decide⟩).imagePrompt ∧
     (∀ j, j ≠ 0 →
        (handleUpdatePage distinctPages updatedFirstPage)[j]? =
          distinctPages[j]?)) :=
  ⟨⟨by decide, by decide, Or.inl rfl⟩,
   handleUpdatePage_frame distinctPages 0 "url novo" updatedFirstPage
     (by decide) (by decide) (Or.inl rfl)⟩

/-- C8: on a video-generation failure whose serialized error contains
"Requested entity was not found", the distinct access-problem message is
surfaced and key re-selection is triggered; on any other failure the generic
message is surfaced and no re-selection happens; in both cases the video
loading flag ends false. -/
theorem video_failure_handling (hasKey : Bool) (e : String) (s0 : AppState)
    (hpages : s0.storyPages ≠ []) :
    (handleGenerateVideo hasKey (.error e) s0).1.videoGenerationStatus.isLoading
        = false ∧
    (strIncludes e entityNotFound = true →
      (handleGenerateVideo hasKey (.error e) s0).1.error = some veoAccessError ∧
      (handleGenerateVideo hasKey (.error e) s0).2.2 = true) ∧
    (strIncludes e entityNotFound = false →
      (handleGenerateVideo hasKey (.error e) s0).1.error = some videoGenericError ∧
      (handleGenerateVideo hasKey (.error e) s0).2.2 = false) := by
  unfold handleGenerateVideo
  rw [if_neg (by simpa [List.isEmpty_iff] using hpages)]
  dsimp only
  cases hinc : strIncludes e entityNotFound <;> simp [hinc]

/-- Witness for `video_failure_handling` on the missing-entity error with a
one-page story. -/
theorem video_failure_handling_witness :
    onePageState.storyPages ≠ [] ∧
    ((handleGenerateVideo true (.error veoErrorString)
        onePageState).1.videoGenerationStatus.isLoading = false ∧
     (strIncludes veoErrorString entityNotFound = true →
       (handleGenerateVideo true (.error veoErrorString) onePageState).1.error =
           some veoAccessError ∧
       (handleGenerateVideo true (.error veoErrorString) onePageState).2.2 =
           true) ∧
     (strIncludes veoErrorString entityNotFound = false →
       (handleGenerateVideo true (.error veoErrorString) onePageState).1.error =
           some videoGenericError ∧
       (handleGenerateVideo true (.error veoErrorString) onePageState).2.2 =
           false)) :=
  ⟨by decide, video_failure_handling true veoErrorString onePageState (by decide)⟩

/-- C9 counterexample: the page-count input of the current form
(`src/components/StoryGeneratorForm.tsx`) declares `max="10"`, not 50. -/
theorem numPagesInputMax_is_ten :
    numPagesInputMax = 10 ∧ ¬ numPagesInputMax = 50 := by
  decide

/-- C9 (amended): for every entered value the stored numPages is at least 1
(`Math.max(1, parseInt(v)) || 1`), a parsed integer v is stored as
`max 1 v`, a failed parse stores 1; the input's declared maximum is 10 in the
current form and 50 in the part_002/part_003 revisions. -/
theorem numPages_input_bounds (parsed : Option Int) (v : Int) :
    1 ≤ setNumPagesFromInput parsed ∧
    setNumPagesFromInput (some v) = max 1 v ∧
    setNumPagesFromInput none = 1 ∧
    numPagesInputMax = 10 ∧
    numPagesInputMax_rev = 50 := by
  refine ⟨?_, rfl, rfl, rfl, rfl⟩
  match parsed with
  | none => simp [setNumPagesFromInput]
  | some v =>
    simp only [setNumPagesFromInput]
    exact le_max_left 1 v

theorem isTextView_ne_isCover (c : Nat) :
    ¬(isTextView c = true ∧ isCover c = true) := by
  rintro ⟨ht, hc⟩
  have h0 : c = 0 := by simpa [isCover] using hc
  subst h0
  simp [isTextView, isCover] at ht

theorem viewChangeEffect_inv (c : Nat) (s : ViewAudioState) :
    AudioInv (viewChangeEffect c s) := by
  constructor
  · intro h
    simp [viewChangeEffect] at h
  · intro h
    simp only [viewChangeEffect] at h ⊢
    split at h
    · assumption
    · simp at h

theorem viewStep_inv (totalPages : Nat) (s : ViewAudioState) (e : ViewEvent)
    (ih : AudioInv s) : AudioInv (viewStep totalPages s e) := by
  obtain ⟨ih1, ih2⟩ := ih
  cases e with
  | next => exact viewChangeEffect_inv _ _
  | prev => exact viewChangeEffect_inv _ _
  | jumpCover => exact viewChangeEffect_inv _ _
  | pageUpdated => exact viewChangeEffect_inv _ _
  | playPausePage =>
    simp only [viewStep]
    split
    · rename_i hg
      refine ⟨fun _ => ?_, ih2⟩
      exact (Bool.and_eq_true _ _ |>.mp hg).1
    · exact ⟨ih1, ih2⟩
  | playPauseCover =>
    simp only [viewStep]
    split
    · rename_i hg
      refine ⟨ih1, fun _ => ?_⟩
      exact (Bool.and_eq_true _ _ |>.mp hg).1
    · exact ⟨ih1, ih2⟩
  | coverAudioLoaded =>
    simp only [viewStep]
    split
    · exact ⟨ih1, ih2⟩
    · exact ⟨ih1, ih2⟩
  | pageDecodeDone => exact ⟨ih1, ih2⟩
  | pageEnded =>
    refine ⟨fun h => ?_, ih2⟩
    simp [viewStep] at h
  | coverEnded =>
    refine ⟨ih1, fun h => ?_⟩
    simp [viewStep] at h

theorem reachable_audioInv (totalPages : Nat) (s : ViewAudioState)
    (hs : ReachableView totalPages s) : AudioInv s := by
  induction hs with
  | init => exact ⟨by simp [initialViewState], by simp [initialViewState]⟩
  | step s e _ ih => exact viewStep_inv totalPages s e ih

/-- C6: in every reachable state of the storybook view at most one audio
source (page narration or cover narration) is audible; moreover every
cursor-changing event leaves the page source stopped, and leaves the cover
source stopped whenever the new view is not the cover. -/
theorem audio_exclusivity (totalPages : Nat) (s : ViewAudioState)
    (hs : ReachableView totalPages s) :
    ¬(s.pagePlaying = true ∧ s.coverPlaying = true) ∧
    (∀ e, e = ViewEvent.next ∨ e = ViewEvent.prev ∨ e = ViewEvent.jumpCover →
      (viewStep totalPages s e).pagePlaying = false ∧
      (isCover (viewStep totalPages s e).cursor = false →
        (viewStep totalPages s e).coverPlaying = false)) := by
  obtain ⟨inv1, inv2⟩ := reachable_audioInv totalPages s hs
  constructor
  · rintro ⟨hp, hc⟩
    exact isTextView_ne_isCover s.cursor ⟨inv1 hp, inv2 hc⟩
  · rintro e (rfl | rfl | rfl) <;>
      refine ⟨by simp [viewStep, viewChangeEffect], fun hnc => ?_⟩ <;>
      · simp only [viewStep, viewChangeEffect] at hnc ⊢
        split
        · rename_i hcov
          rw [hcov] at hnc
          simp at hnc
        · rfl

/-- Witness for `audio_exclusivity`: the state of a 1-page book after
navigating to the text view, decoding, and pressing play. -/
theorem audio_exclusivity_witness :
    ¬((viewStep 1 (viewStep 1 (viewStep 1 (viewStep 1 initialViewState
          ViewEvent.next) ViewEvent.next) ViewEvent.pageDecodeDone)
          ViewEvent.playPausePage).pagePlaying = true ∧
      (viewStep 1 (viewStep 1 (viewStep 1 (viewStep 1 initialViewState
          ViewEvent.next) ViewEvent.next) ViewEvent.pageDecodeDone)
          ViewEvent.playPausePage).coverPlaying = true) ∧
    (∀ e, e = ViewEvent.next ∨ e = ViewEvent.prev ∨ e = ViewEvent.jumpCover →
      (viewStep 1 (viewStep 1 (viewStep 1 (viewStep 1 (viewStep 1
          initialViewState ViewEvent.next) ViewEvent.next)
          ViewEvent.pageDecodeDone) ViewEvent.playPausePage) e).pagePlaying =
        false ∧
      (isCover (viewStep 1 (viewStep 1 (viewStep 1 (viewStep 1 (viewStep 1
          initialViewState ViewEvent.next) ViewEvent.next)
          ViewEvent.pageDecodeDone) ViewEvent.playPausePage) e).cursor = false →
        (viewStep 1 (viewStep 1 (viewStep 1 (viewStep 1 (viewStep 1
          initialViewState ViewEvent.next) ViewEvent.next)
          ViewEvent.pageDecodeDone) ViewEvent.playPausePage) e).coverPlaying =
          false)) :=
  audio_exclusivity 1 _
    (ReachableView.step _ ViewEvent.playPausePage
      (ReachableView.step _ ViewEvent.pageDecodeDone
        (ReachableView.step _ ViewEvent.next
          (ReachableView.step _ ViewEvent.next ReachableView.init))))

/-- C7 (code defect): the decode completion callback stores its buffer
unconditionally, so a decode started for the text view of page 1 (cursor 2)
that arrives after the user has navigated to the text view of page 2
(cursor 4) is kept as the current buffer and is exactly what the play button
would start — the stale result is neither discarded nor unplayable, contrary
to the claim. -/
theorem stale_decode_not_discarded :
    [1, 2, 3, 4] = [goToNext 2 0, goToNext 2 1, goToNext 2 2, goToNext 2 3] ∧
    (runDecode initialDecodeState staleDecodeTrace).cursor = 4 ∧
    isTextView 4 = true ∧
    pageIndex 4 = 1 ∧
    (runDecode initialDecodeState staleDecodeTrace).audioBuffer = some 0 ∧
    playedBuffer (runDecode initialDecodeState staleDecodeTrace) = some 0 ∧
    playedBuffer (runDecode initialDecodeState staleDecodeTrace) ≠
      some (pageIndex (runDecode initialDecodeState staleDecodeTrace).cursor) := by
  decide

theorem toInt16_bounds (lo hi : Nat) (hlo : lo < 256) (hhi : hi < 256) :
    -32768 ≤ toInt16 lo hi ∧ toInt16 lo hi ≤ 32767 := by
  unfold toInt16
  split <;> constructor <;> omega

theorem bytesToInt16_bounds : ∀ (data : List Nat), (∀ b ∈ data, b < 256) →
    ∀ v ∈ bytesToInt16 data, -32768 ≤ v ∧ v ≤ 32767
  | [], _, v, hv => by simp [bytesToInt16] at hv
  | [x], _, v, hv => by simp [bytesToInt16] at hv
  | lo :: hi :: rest, hb, v, hv => by
    simp only [bytesToInt16, List.mem_cons] at hv
    rcases hv with rfl | hv
    · exact toInt16_bounds lo hi (hb lo (by simp)) (hb hi (by simp))
    · exact bytesToInt16_bounds rest (fun b hbm => hb b (by simp [hbm])) v hv

/-- C10: for every byte array of even length (each entry a byte) interpreted
as 16-bit signed little-endian PCM with a positive channel count dividing the
sample count, every sample written by `decodeAudioData` equals some source
int16 value divided by 32768 and lies in [-1, 32767/32768], so no decoded
sample exceeds 1 in magnitude. -/
theorem decodeAudioData_sample_bounds (data : List Nat) (numChannels : Nat)
    (hb : ∀ b ∈ data, b < 256)
    (heven : 2 ∣ data.length)
    (hnc : 0 < numChannels)
    (hdiv : numChannels ∣ (bytesToInt16 data).length) :
    ∀ chan ∈ decodeAudioData data numChannels, ∀ q ∈ chan,
      (-1 ≤ q ∧ q ≤ 32767 / 32768) ∧
      ∃ v : Int, v ∈ bytesToInt16 data ∧ q = (v : ℚ) / 32768 := by
  intro chan hchan q hq
  simp only [decodeAudioData, List.mem_map, List.mem_range] at hchan
  obtain ⟨channel, hchannel, rfl⟩ := hchan
  simp only [List.mem_map, List.mem_range] at hq
  obtain ⟨i, hi, rfl⟩ := hq
  obtain ⟨k, hk⟩ := hdiv
  have hfc : (bytesToInt16 data).length / numChannels = k := by
    rw [hk]
    exact Nat.mul_div_cancel_left k hnc
  rw [hfc] at hi
  have hidx : i * numChannels + channel < (bytesToInt16 data).length := by
    have h1 : i * numChannels + channel < (i + 1) * numChannels := by
      rw [add_mul, one_mul]
      omega
    have h2 : (i + 1) * numChannels ≤ k * numChannels :=
      Nat.mul_le_mul_right numChannels hi
    have h3 : k * numChannels = (bytesToInt16 data).length := by
      rw [hk, mul_comm]
    omega
  have hgetD : (bytesToInt16 data).getD (i * numChannels + channel) 0 =
      (bytesToInt16 data).get ⟨i * numChannels + channel, hidx⟩ := by
    rw [List.getD_eq_getElem?_getD, List.getElem?_eq_getElem hidx]
    rfl
  set v : Int := (bytesToInt16 data).get ⟨i * numChannels + channel, hidx⟩ with hv
  have hvmem : v ∈ bytesToInt16 data := List.get_mem _ _ _
  obtain ⟨hlb, hub⟩ := bytesToInt16_bounds data hb v hvmem
  have hlbq : (-32768 : ℚ) ≤ (v : ℚ) := by exact_mod_cast hlb
  have hubq : (v : ℚ) ≤ 32767 := by exact_mod_cast hub
  rw [hgetD]
  refine ⟨⟨by linarith, by linarith⟩, v, hvmem, rfl⟩

/-- Witness for `decodeAudioData_sample_bounds` on the concrete mono PCM
bytes `sampleBytes`. -/
theorem decodeAudioData_sample_bounds_witness :
    ((∀ b ∈ sampleBytes, b < 256) ∧ 2 ∣ sampleBytes.length ∧ (0 : Nat) < 1 ∧
      1 ∣ (bytesToInt16 sampleBytes).length) ∧
    (∀ chan ∈ decodeAudioData sampleBytes 1, ∀ q ∈ chan,
      (-1 ≤ q ∧ q ≤ 32767 / 32768) ∧
      ∃ v : Int, v ∈ bytesToInt16 sampleBytes ∧ q = (v : ℚ) / 32768) :=
  ⟨⟨by decide, by decide, by decide, by decide⟩,
   decodeAudioData_sample_bounds sampleBytes 1 (by decide) (by decide)
     (by decide) (by decide)⟩

end Fabula
